import Mathlib

/-!
Shallow embedding of the binlog-collector consumer (`src/consumer.js`):
the message-processing pipeline (`processMessage`), the retry-based
connectors (`connectToRabbitMQ`, `connectToMongoDB`), the channel setup
performed at startup and on reconnect, the broker's prefetch-bounded
delivery discipline, and the process exit codes of the SIGINT shutdown
handler and the startup failure paths.
-/

namespace Consumer

mutual

/-- JavaScript values as they appear in parsed JSON message bodies and in
documents handed to the MongoDB driver.  Numbers are modelled as rationals
since `Date.now() / 1000` can be fractional. -/
inductive Value where
  | str : String → Value
  | num : Rat → Value
  | bool : Bool → Value
  | null : Value
  | arr : VList → Value
  | obj : Fields → Value
deriving DecidableEq

/-- A list of values (the elements of a JS array). -/
inductive VList where
  | nil : VList
  | cons : Value → VList → VList
deriving DecidableEq

/-- The ordered property list of a JS object (property order is insertion
order, as in JS). -/
inductive Fields where
  | nil : Fields
  | cons : String → Value → Fields → Fields
deriving DecidableEq

end

/-- A JavaScript object, given by its ordered property list. -/
abbrev Obj := Fields

/-- Property read `o[k]`: the value of the first binding of `k`, if any. -/
def lookupField : Obj → String → Option Value
  | Fields.nil, _ => none
  | Fields.cons k v rest, key => if k = key then some v else lookupField rest key

/-- Property write `o[k] = v` in JS: overwrite the existing binding in place
if the key is present, otherwise append the new property at the end. -/
def setField : Obj → String → Value → Obj
  | Fields.nil, key, v => Fields.cons key v Fields.nil
  | Fields.cons k w rest, key, v =>
      if k = key then Fields.cons k v rest else Fields.cons k w (setField rest key v)

/-- The property names of an object, in order. -/
def keys : Obj → List String
  | Fields.nil => []
  | Fields.cons k _ rest => k :: keys rest

/-- JS truthiness, used by the `x || 'unknown'` fallbacks in the logging
code: empty string, zero, `false` and `null` are falsy. -/
def truthy : Value → Bool
  | Value.str s => !s.isEmpty
  | Value.num q => q ≠ 0
  | Value.bool b => b
  | Value.null => false
  | Value.arr _ => true
  | Value.obj _ => true

/-- The JS expression `v || dflt` applied to an optional property read:
yields the property's value when present and truthy, else the default. -/
def jsOr (v : Option Value) (dflt : Value) : Value :=
  match v with
  | some w => if truthy w then w else dflt
  | none => dflt

/-- A delivered message body, classified by the outcome of `JSON.parse` on
`message.content.toString()`: either malformed (the parse throws) or an
object with the given properties. -/
inductive Body where
  | malformed (raw : String)
  | wellFormed (content : Obj)
deriving DecidableEq

/-- `JSON.parse(message.content.toString())`: `none` models the thrown
`SyntaxError` on a malformed body. -/
def parseJSON : Body → Option Obj
  | Body.malformed _ => none
  | Body.wellFormed c => some c

/-- Outcomes the environment supplies for the fallible external calls made
during one run of `processMessage`: whether `collection.insertOne` succeeds
and whether `channel.ack` succeeds (the ack call throws, e.g., when the
channel has been closed under the message). -/
structure MsgEnv where
  insertOk : Bool
  ackOk : Bool
deriving DecidableEq

/-- Externally visible actions of one `processMessage` run, in program
order.  `insertAttempt doc ok` is a call `collection.insertOne(doc)` with
outcome `ok`; `log` records the three `|| 'unknown'` labels of the info
line; `ackAttempt ok` is a call `channel.ack(message)` with outcome `ok`;
`nack allUpTo requeue` is a call `channel.nack(message, allUpTo, requeue)`. -/
inductive Action where
  | insertAttempt (doc : Obj) (ok : Bool)
  | log (database table typeOfChange : Value)
  | ackAttempt (ok : Bool)
  | nack (allUpTo requeue : Bool)
deriving DecidableEq

/-- The `received_at` stamp: `Date.now() / 1000`, with `Date.now()` the
current time `nowMs` in milliseconds since epoch — the rational
`nowMs / 1000` (written with `mkRat` so that it evaluates by `rfl`). -/
def receivedAtStamp (nowMs : Nat) : Value :=
  Value.num (mkRat (nowMs : Int) 1000)

/-- `processMessage(message, channel, collection)` from `src/consumer.js`,
as the ordered list of external actions of one run.  The whole body runs in
one `try`; any throw (parse failure, insert failure, ack failure) lands in
the single `catch`, which calls `channel.nack(message, false, true)`. -/
def processMessage (message : Body) (nowMs : Nat) (env : MsgEnv) : List Action :=
  match parseJSON message with
  | none => [Action.nack false true]
  | some content =>
      let doc := setField content "received_at" (receivedAtStamp nowMs)
      if env.insertOk then
        let database := jsOr (lookupField doc "database") (Value.str "unknown")
        let table := jsOr (lookupField doc "table") (Value.str "unknown")
        let typeOfChange := jsOr (lookupField doc "type") (Value.str "unknown")
        if env.ackOk then
          [Action.insertAttempt doc true,
           Action.log database table typeOfChange,
           Action.ackAttempt true]
        else
          [Action.insertAttempt doc true,
           Action.log database table typeOfChange,
           Action.ackAttempt false,
           Action.nack false true]
      else
        [Action.insertAttempt doc false, Action.nack false true]

/-- A message's successive deliveries: the broker redelivers a
nack-requeued message, so processing repeats — each attempt with its own
wall-clock time and external outcomes — until a run ends in a successful
ack.  The concatenated action trace of all attempts. -/
def processDeliveries (message : Body) : List (Nat × MsgEnv) → List Action
  | [] => []
  | (nowMs, env) :: rest =>
      let tr := processMessage message nowMs env
      if Action.ackAttempt true ∈ tr then tr
      else tr ++ processDeliveries message rest

/-! ### The broker channel: setup operations, reconnect scheduling, prefetch -/

/-- Default exchange name (`RABBITMQ_EXCHANGE`, line 25). -/
def RABBITMQ_EXCHANGE : String := "maxwell"

/-- Default queue name (`RABBITMQ_QUEUE`, line 26). -/
def RABBITMQ_QUEUE : String := "maxwell_consumer"

/-- Operations performed on a broker channel. -/
inductive ChannelOp where
  | assertExchange (name kind : String) (durable : Bool)
  | assertQueue (name : String) (durable : Bool)
  | bindQueue (queue exchange routingKey : String)
  | setPrefetch (n : Nat)
  | consume (queue : String)
deriving DecidableEq

/-- Whether a channel operation registers a consumer (`channel.consume`). -/
def isConsumeOp : ChannelOp → Bool
  | ChannelOp.consume _ => true
  | _ => false

/-- The channel operations `connectToRabbitMQ` performs once a connection
attempt succeeds (lines 54-66): assert the durable fanout exchange, assert
the durable queue, bind the queue to the exchange with an empty routing
key.  No consumer is registered inside `connectToRabbitMQ`. -/
def connectToRabbitMQChannelOps : List ChannelOp :=
  [ChannelOp.assertExchange RABBITMQ_EXCHANGE "fanout" true,
   ChannelOp.assertQueue RABBITMQ_QUEUE true,
   ChannelOp.bindQueue RABBITMQ_QUEUE RABBITMQ_EXCHANGE ""]

/-- Delay before the background reconnect: the connection's 'error' and
'close' handlers both run `setTimeout(connectToRabbitMQ, 5000)`
(lines 43-51). -/
def reconnectDelayMs : Nat := 5000

/-- The channel operations performed by the scheduled background reconnect:
the handler calls `connectToRabbitMQ` and discards the returned connection
and channel, so exactly the setup operations inside `connectToRabbitMQ`
run; `channel.consume` is never re-invoked on the new channel. -/
def reconnectChannelOps : List ChannelOp := connectToRabbitMQChannelOps

/-- The channel operations performed by `main` at startup (lines 143-159):
the setup inside `connectToRabbitMQ`, then `channel.prefetch(1)`, then
`channel.consume(RABBITMQ_QUEUE, ...)`. -/
def mainChannelOps : List ChannelOp :=
  connectToRabbitMQChannelOps ++
    [ChannelOp.setPrefetch 1, ChannelOp.consume RABBITMQ_QUEUE]

/-- The prefetch limit `main` sets before subscribing (line 148). -/
def PREFETCH_COUNT : Nat := 1

/-- One transition of the broker's per-consumer delivery discipline under a
prefetch limit (the state is the number of delivered-but-unresolved
messages): `deliver` hands the consumer one more message and is possible
only while fewer than `limit` are unresolved; `resolve` settles one
delivered message (it is acknowledged or negatively-acknowledged). -/
inductive BrokerStep (limit : Nat) : Nat → Nat → Prop where
  | deliver {k : Nat} : k < limit → BrokerStep limit k (k + 1)
  | resolve {k : Nat} : BrokerStep limit (k + 1) k

/-! ### The connect-with-retry loops -/

/-- Retry interval of both connectors: `setTimeout(resolve, 5000)`
(lines 69 and 95). -/
def RETRY_DELAY_MS : Nat := 5000

/-- Observable steps of a connect loop: a connection attempt with its
outcome, or the fixed sleep between attempts. -/
inductive ConnStep where
  | attempt (n : Nat) (ok : Bool)
  | sleep (ms : Nat)
deriving DecidableEq

/-- The `while (true) { try { ... return ... } catch { log; await sleep(5000) } }`
skeleton shared by `connectToRabbitMQ` (lines 35-72) and `connectToMongoDB`
(lines 77-98).  `outcome n` abstracts whether the n-th attempt (the whole
`try` body: connect, channel/handle creation, asserts or index creation)
succeeds; `fuel` bounds how long we observe the unbounded loop.  Returns
the trace of steps and, when a success was reached within the observation
window, the index of the succeeding attempt; `none` means the loop is still
retrying — there is no error return. -/
def retryConnect (outcome : Nat → Bool) : Nat → Nat → List ConnStep × Option Nat
  | _, 0 => ([], none)
  | start, fuel + 1 =>
      if outcome start then ([ConnStep.attempt start true], some start)
      else
        let r := retryConnect outcome (start + 1) fuel
        (ConnStep.attempt start false :: ConnStep.sleep RETRY_DELAY_MS :: r.1, r.2)

/-- `connectToRabbitMQ` (lines 35-72): each attempt is amqp connect +
channel creation + exchange/queue assertion + binding, all inside one
`try`; any failure sleeps 5000 ms and retries. -/
def connectToRabbitMQ : (Nat → Bool) → Nat → Nat → List ConnStep × Option Nat :=
  retryConnect

/-- `connectToMongoDB` (lines 77-98): each attempt is client connect +
index creation, all inside one `try`; any failure sleeps 5000 ms and
retries. -/
def connectToMongoDB : (Nat → Bool) → Nat → Nat → List ConnStep × Option Nat :=
  retryConnect

/-! ### Process exit codes -/

/-- Exit code of the SIGINT graceful-shutdown handler (lines 162-182):
`try { await brokerClose; await storeClose; exit(0) } catch { exit(1) }`.
If closing the broker connection throws, the store close is not reached
and the catch exits 1; a failing store close likewise exits 1. -/
def sigintShutdownExitCode (closeRabbitOk closeMongoOk : Bool) : Nat :=
  if closeRabbitOk then (if closeMongoOk then 0 else 1) else 1

/-- Exit code when startup fails unrecoverably: both the `catch` in `main`
(line 195) and the top-level `main().catch` handler (line 202) call
`process.exit(1)`. -/
def startupFailureExitCode : Nat := 1

/-! ### Basic lemmas about objects and the per-run traces -/

theorem receivedAtStamp_eq_div (nowMs : Nat) :
    receivedAtStamp nowMs = Value.num ((nowMs : Rat) / 1000) := by
  simp [receivedAtStamp, Rat.mkRat_eq_div]

/-- Single-motive structural induction for property lists (the mutual
inductive's generated eliminator has several motives, which the `induction`
tactic does not accept). -/
theorem fieldsInduction {motive : Fields → Prop} (nil : motive Fields.nil)
    (cons : ∀ k v rest, motive rest → motive (Fields.cons k v rest)) :
    ∀ o, motive o
  | Fields.nil => nil
  | Fields.cons k v rest => cons k v rest (fieldsInduction nil cons rest)

theorem lookupField_setField_self (o : Obj) (k : String) (v : Value) :
    lookupField (setField o k v) k = some v := by
  induction o using fieldsInduction with
  | nil => simp [setField, lookupField]
  | cons a w rest ih =>
      by_cases h : a = k <;> simp [setField, lookupField, h, ih]

theorem lookupField_setField_ne (o : Obj) (k k' : String) (v : Value) (h : k' ≠ k) :
    lookupField (setField o k v) k' = lookupField o k' := by
  have hk : ¬(k = k') := fun e => h e.symm
  induction o using fieldsInduction with
  | nil => simp [setField, lookupField, hk]
  | cons a w rest ih =>
      by_cases hak : a = k
      · simp [setField, lookupField, hak, hk, ih]
      · simp [setField, lookupField, hak, ih]

theorem keys_setField (o : Obj) (k : String) (v : Value) :
    keys (setField o k v) = if k ∈ keys o then keys o else keys o ++ [k] := by
  induction o using fieldsInduction with
  | nil => simp [setField, keys]
  | cons a w rest ih =>
      by_cases hak : a = k
      · simp [setField, keys, hak]
      · have hka : ¬(k = a) := fun e => hak e.symm
        by_cases hk : k ∈ keys rest <;> simp [setField, keys, hak, hka, ih, hk]

theorem processMessage_malformed (raw : String) (nowMs : Nat) (env : MsgEnv) :
    processMessage (Body.malformed raw) nowMs env = [Action.nack false true] := rfl

theorem insertAttempt_mem_processMessage_iff (content : Obj) (nowMs : Nat) (env : MsgEnv)
    (doc : Obj) (ok : Bool) :
    Action.insertAttempt doc ok ∈ processMessage (Body.wellFormed content) nowMs env ↔
      doc = setField content "received_at" (receivedAtStamp nowMs) ∧ ok = env.insertOk := by
  obtain ⟨i, a⟩ := env
  cases i <;> cases a <;> simp [processMessage, parseJSON]

theorem ackAttempt_true_mem_processMessage_iff (message : Body) (nowMs : Nat) (env : MsgEnv) :
    Action.ackAttempt true ∈ processMessage message nowMs env ↔
      (parseJSON message).isSome = true ∧ env.insertOk = true ∧ env.ackOk = true := by
  obtain ⟨i, a⟩ := env
  cases message <;> cases i <;> cases a <;> simp [processMessage, parseJSON]

theorem nack_mem_processMessage_iff (message : Body) (nowMs : Nat) (env : MsgEnv) :
    Action.nack false true ∈ processMessage message nowMs env ↔
      ((parseJSON message).isSome = false ∨ env.insertOk = false ∨ env.ackOk = false) := by
  obtain ⟨i, a⟩ := env
  cases message <;> cases i <;> cases a <;> simp [processMessage, parseJSON]

theorem insertAttempt_mem_processDeliveries (message : Body) :
    ∀ (attempts : List (Nat × MsgEnv)) (doc : Obj) (ok : Bool),
      Action.insertAttempt doc ok ∈ processDeliveries message attempts →
      ∃ te ∈ attempts, Action.insertAttempt doc ok ∈ processMessage message te.1 te.2 := by
  intro attempts
  induction attempts with
  | nil => intro doc ok h; simp [processDeliveries] at h
  | cons te rest ih =>
      intro doc ok h
      obtain ⟨t, env⟩ := te
      simp only [processDeliveries] at h
      by_cases hack : Action.ackAttempt true ∈ processMessage message t env
      · rw [if_pos hack] at h
        exact ⟨(t, env), List.mem_cons_self _ _, h⟩
      · rw [if_neg hack] at h
        rcases List.mem_append.mp h with h | h
        · exact ⟨(t, env), List.mem_cons_self _ _, h⟩
        · obtain ⟨te2, hte2, hmem⟩ := ih doc ok h
          exact ⟨te2, List.mem_cons_of_mem _ hte2, hmem⟩

/-! ### Lemmas about the retry loops -/

theorem retryConnect_some_outcome (outcome : Nat → Bool) :
    ∀ (fuel start n : Nat),
      (retryConnect outcome start fuel).2 = some n → outcome n = true := by
  intro fuel
  induction fuel with
  | zero => intro start n h; simp [retryConnect] at h
  | succ f ih =>
      intro start n h
      cases hs : outcome start with
      | true =>
          simp [retryConnect, hs] at h
          exact h ▸ hs
      | false =>
          simp [retryConnect, hs] at h
          exact ih (start + 1) n h

theorem retryConnect_none_all_fail (outcome : Nat → Bool) :
    ∀ (fuel start : Nat),
      (retryConnect outcome start fuel).2 = none →
      ∀ m, start ≤ m → m < start + fuel → outcome m = false := by
  intro fuel
  induction fuel with
  | zero => intro start _ m h1 h2; omega
  | succ f ih =>
      intro start h m h1 h2
      cases hs : outcome start with
      | true => simp [retryConnect, hs] at h
      | false =>
          by_cases hm : m = start
          · rw [hm]; exact hs
          · simp [retryConnect, hs] at h
            exact ih (start + 1) h m (by omega) (by omega)

theorem retryConnect_sleep_fixed (outcome : Nat → Bool) :
    ∀ (fuel start ms : Nat),
      ConnStep.sleep ms ∈ (retryConnect outcome start fuel).1 → ms = RETRY_DELAY_MS := by
  intro fuel
  induction fuel with
  | zero => intro start ms h; simp [retryConnect] at h
  | succ f ih =>
      intro start ms h
      cases hs : outcome start with
      | true => simp [retryConnect, hs] at h
      | false =>
          simp [retryConnect, hs] at h
          rcases h with h | h
          · exact h
          · exact ih (start + 1) ms h

theorem retryConnect_success_isSome (outcome : Nat → Bool) :
    ∀ (fuel start : Nat),
      (∃ k, k < fuel ∧ outcome (start + k) = true) →
      ((retryConnect outcome start fuel).2).isSome = true := by
  intro fuel
  induction fuel with
  | zero => rintro start ⟨k, hk, -⟩; omega
  | succ f ih =>
      rintro start ⟨k, hk, hsucc⟩
      cases hs : outcome start with
      | true => simp [retryConnect, hs]
      | false =>
          simp only [retryConnect, hs, Bool.false_eq_true, if_false]
          apply ih
          cases k with
          | zero => rw [Nat.add_zero] at hsucc; rw [hsucc] at hs; cases hs
          | succ j =>
              refine ⟨j, by omega, ?_⟩
              have harg : start + 1 + j = start + (j + 1) := by omega
              rw [harg]
              exact hsucc

/-! ### The claims -/

/-- **C1** (corrected).  The pipeline acks only after the store insert of
the message's document has succeeded, and when the insert and the ack call
itself both succeed no nack occurs; but the frozen claim's direction
"persistence success excludes the nack path" holds only when the
`channel.ack` call itself does not throw — a throwing ack after a
successful insert lands in the single `catch`, which nacks (see
`C1_counterexample`).  Amended: a successful ack occurs iff the parse, the
insert and the ack call all succeed; with a succeeding ack call, a
successful insert excludes the nack path; and a nack following a
successful insert can only arise from a failing ack call. -/
theorem C1_single_commit_point (message : Body) (nowMs : Nat) (env : MsgEnv) :
    (Action.ackAttempt true ∈ processMessage message nowMs env ↔
      (parseJSON message).isSome = true ∧ env.insertOk = true ∧ env.ackOk = true) ∧
    (∀ doc : Obj,
        Action.insertAttempt doc true ∈ processMessage message nowMs env →
        env.ackOk = true →
        Action.nack false true ∉ processMessage message nowMs env) ∧
    (∀ doc : Obj,
        Action.insertAttempt doc true ∈ processMessage message nowMs env →
        Action.nack false true ∈ processMessage message nowMs env →
        env.ackOk = false) := by
  obtain ⟨i, a⟩ := env
  cases message <;> cases i <;> cases a <;> simp [processMessage, parseJSON]

/-- **C1** counterexample to the frozen claim: with a well-formed message,
a succeeding insert and a throwing `channel.ack`, the trace contains a
successful insert and a subsequent nack, and no successful ack — so
"persistence success excludes the nack path" and "ack iff persistence
succeeded" are both false on the code. -/
theorem C1_counterexample :
    (Action.insertAttempt
        (Fields.cons "id" (Value.num 1) (Fields.cons "received_at" (Value.num 1) Fields.nil))
        true
      ∈ processMessage (Body.wellFormed (Fields.cons "id" (Value.num 1) Fields.nil)) 1000
          ⟨true, false⟩) ∧
    (Action.nack false true
      ∈ processMessage (Body.wellFormed (Fields.cons "id" (Value.num 1) Fields.nil)) 1000
          ⟨true, false⟩) ∧
    (Action.ackAttempt true
      ∉ processMessage (Body.wellFormed (Fields.cons "id" (Value.num 1) Fields.nil)) 1000
          ⟨true, false⟩) := by decide

/-- **C1** witness: at a concrete well-formed message with both external
calls succeeding, the amended theorem yields a successful ack. -/
theorem C1_single_commit_point_witness :
    Action.ackAttempt true ∈ processMessage (Body.wellFormed Fields.nil) 2000 ⟨true, true⟩ :=
  (C1_single_commit_point (Body.wellFormed Fields.nil) 2000 ⟨true, true⟩).1.mpr (by decide)

/-- **C2** (confirmed).  A malformed body makes `JSON.parse` throw, so the
run is exactly one `channel.nack(message, false, true)`: no ack, no store
write, a nack with requeue on every delivery — regardless of the
environment's insert/ack outcomes, so the store is never touched by such a
message. -/
theorem C2_malformed_nacked_not_stored (raw : String) (nowMs : Nat) (env : MsgEnv) :
    processMessage (Body.malformed raw) nowMs env = [Action.nack false true] ∧
    (∀ (doc : Obj) (ok : Bool),
        Action.insertAttempt doc ok ∉ processMessage (Body.malformed raw) nowMs env) ∧
    (∀ ok : Bool, Action.ackAttempt ok ∉ processMessage (Body.malformed raw) nowMs env) ∧
    Action.nack false true ∈ processMessage (Body.malformed raw) nowMs env := by
  refine ⟨rfl, ?_, ?_, ?_⟩ <;> simp [processMessage, parseJSON]

/-- **C2** witness: the concrete malformed body `"not json"` yields exactly
the nack-with-requeue trace. -/
theorem C2_malformed_witness :
    processMessage (Body.malformed "not json") 0 ⟨true, true⟩ = [Action.nack false true] :=
  (C2_malformed_nacked_not_stored "not json" 0 ⟨true, true⟩).1

/-- **C3** (confirmed).  Every document handed to `collection.insertOne`
for a successfully parsed message is exactly the parsed content with the
single injected `received_at` ingestion timestamp: the stamp field carries
`nowMs / 1000`, every other property reads unchanged, and the key set is
the content's keys plus (at most) the one new key. -/
theorem C3_inserted_document_shape (content : Obj) (nowMs : Nat) (env : MsgEnv)
    (doc : Obj) (ok : Bool)
    (h : Action.insertAttempt doc ok ∈ processMessage (Body.wellFormed content) nowMs env) :
    doc = setField content "received_at" (receivedAtStamp nowMs) ∧
    lookupField doc "received_at" = some (Value.num ((nowMs : Rat) / 1000)) ∧
    (∀ k : String, k ≠ "received_at" → lookupField doc k = lookupField content k) ∧
    keys doc =
      (if "received_at" ∈ keys content then keys content
       else keys content ++ ["received_at"]) := by
  obtain ⟨hd, -⟩ := (insertAttempt_mem_processMessage_iff content nowMs env doc ok).mp h
  subst hd
  refine ⟨rfl, ?_, ?_, ?_⟩
  · rw [lookupField_setField_self, receivedAtStamp_eq_div]
  · intro k hk
    exact lookupField_setField_ne content "received_at" k (receivedAtStamp nowMs) hk
  · exact keys_setField content "received_at" (receivedAtStamp nowMs)

/-- **C3** witness: for the concrete message `{id: 1}` at 1000 ms, the
inserted document agrees with the input on the `id` field. -/
theorem C3_inserted_document_witness :
    lookupField
        (Fields.cons "id" (Value.num 1) (Fields.cons "received_at" (Value.num 1) Fields.nil))
        "id"
      = lookupField (Fields.cons "id" (Value.num 1) Fields.nil) "id" :=
  (C3_inserted_document_shape (Fields.cons "id" (Value.num 1) Fields.nil) 1000 ⟨true, true⟩
      (Fields.cons "id" (Value.num 1) (Fields.cons "received_at" (Value.num 1) Fields.nil)) true
      (by decide)).2.2.1 "id" (by decide)

/-- **C4** counterexample to the frozen claim.  Message `{id: 1}` is first
delivered at 100000 ms (parse succeeds, so `received_at` is stamped 100;
the insert fails and the run nacks) and redelivered at 200000 ms (insert
succeeds).  The document the store accepts carries `received_at = 200`,
the reprocessing time — not 100, the time of the first successful parse —
and no successfully inserted document carries 100: the stamp IS re-assigned
on redelivery. -/
theorem C4_counterexample :
    (Action.insertAttempt
        (Fields.cons "id" (Value.num 1) (Fields.cons "received_at" (Value.num 100) Fields.nil))
        false
      ∈ processDeliveries (Body.wellFormed (Fields.cons "id" (Value.num 1) Fields.nil))
          [(100000, ⟨false, true⟩), (200000, ⟨true, true⟩)]) ∧
    (Action.insertAttempt
        (Fields.cons "id" (Value.num 1) (Fields.cons "received_at" (Value.num 200) Fields.nil))
        true
      ∈ processDeliveries (Body.wellFormed (Fields.cons "id" (Value.num 1) Fields.nil))
          [(100000, ⟨false, true⟩), (200000, ⟨true, true⟩)]) ∧
    (Action.insertAttempt
        (Fields.cons "id" (Value.num 1) (Fields.cons "received_at" (Value.num 100) Fields.nil))
        true
      ∉ processDeliveries (Body.wellFormed (Fields.cons "id" (Value.num 1) Fields.nil))
          [(100000, ⟨false, true⟩), (200000, ⟨true, true⟩)]) ∧
    Value.num 100 ≠ Value.num 200 := by decide

/-- **C4** (amended).  `received_at` is a consumer-assigned time in seconds
since epoch, assigned at every successful parse: each processing attempt
stamps the document with that attempt's own `Date.now() / 1000`, so on
redelivery after a nack the field is assigned afresh, and the persisted
document carries the timestamp of the attempt whose insert succeeded (some
attempt of the delivery sequence), not necessarily the first parse. -/
theorem C4_restamped_on_every_attempt :
    (∀ (content : Obj) (nowMs : Nat) (env : MsgEnv) (doc : Obj) (ok : Bool),
        Action.insertAttempt doc ok ∈ processMessage (Body.wellFormed content) nowMs env →
        doc = setField content "received_at" (receivedAtStamp nowMs)) ∧
    (∀ (message : Body) (attempts : List (Nat × MsgEnv)) (doc : Obj) (ok : Bool),
        Action.insertAttempt doc ok ∈ processDeliveries message attempts →
        ∃ te ∈ attempts, Action.insertAttempt doc ok ∈ processMessage message te.1 te.2) := by
  constructor
  · intro content nowMs env doc ok h
    exact ((insertAttempt_mem_processMessage_iff content nowMs env doc ok).mp h).1
  · exact insertAttempt_mem_processDeliveries

/-- **C4** witness: a concrete attempt at 3000 ms stamps its document with
that attempt's own time, 3 seconds. -/
theorem C4_restamped_witness :
    Fields.cons "a" (Value.bool true) (Fields.cons "received_at" (Value.num 3) Fields.nil) =
      setField (Fields.cons "a" (Value.bool true) Fields.nil) "received_at"
        (receivedAtStamp 3000) :=
  C4_restamped_on_every_attempt.1 (Fields.cons "a" (Value.bool true) Fields.nil) 3000
    ⟨true, true⟩
    (Fields.cons "a" (Value.bool true) (Fields.cons "received_at" (Value.num 3) Fields.nil))
    true (by decide)

/-- **C5** (code-bug support).  The connection 'error'/'close' handlers do
schedule an unconditional background reconnect after a fixed 5000 ms delay,
but the scheduled call is a bare `connectToRabbitMQ` whose returned
connection and channel are discarded: the reconnect path performs only the
exchange/queue/binding setup and registers no consumer, whereas the one and
only `channel.consume` of the program is issued by `main` at startup on the
original channel.  After a drop and reconnect, nothing is subscribed, so
unacknowledged messages are not redelivered to this consumer. -/
theorem C5_reconnect_registers_no_consumer :
    reconnectDelayMs = 5000 ∧
    reconnectChannelOps.all (fun op => !(isConsumeOp op)) = true ∧
    ChannelOp.consume RABBITMQ_QUEUE ∈ mainChannelOps ∧
    mainChannelOps.filter isConsumeOp = [ChannelOp.consume RABBITMQ_QUEUE] := by decide

/-- **C6** (confirmed).  Both connectors are the same unbounded retry loop:
a returned index is always a succeeding attempt (no error return); while it
has not returned, every attempt in the observed window failed (it never
gives up and never terminates the process); every sleep between attempts is
exactly 5000 ms; and as soon as some attempt within the observation window
succeeds, the loop returns. -/
theorem C6_connect_retries_until_success :
    (∀ (outcome : Nat → Bool) (start fuel n : Nat),
        (connectToRabbitMQ outcome start fuel).2 = some n → outcome n = true) ∧
    (∀ (outcome : Nat → Bool) (start fuel : Nat),
        (connectToRabbitMQ outcome start fuel).2 = none →
        ∀ m, start ≤ m → m < start + fuel → outcome m = false) ∧
    (∀ (outcome : Nat → Bool) (start fuel ms : Nat),
        ConnStep.sleep ms ∈ (connectToRabbitMQ outcome start fuel).1 → ms = 5000) ∧
    (∀ (outcome : Nat → Bool) (start fuel : Nat),
        (∃ k, k < fuel ∧ outcome (start + k) = true) →
        ((connectToRabbitMQ outcome start fuel).2).isSome = true) ∧
    (∀ (outcome : Nat → Bool) (start fuel n : Nat),
        (connectToMongoDB outcome start fuel).2 = some n → outcome n = true) ∧
    (∀ (outcome : Nat → Bool) (start fuel ms : Nat),
        ConnStep.sleep ms ∈ (connectToMongoDB outcome start fuel).1 → ms = 5000) :=
  ⟨fun o s f n => retryConnect_some_outcome o f s n,
   fun o s f => retryConnect_none_all_fail o f s,
   fun o s f ms h => retryConnect_sleep_fixed o f s ms h,
   fun o s f h => retryConnect_success_isSome o f s h,
   fun o s f n => retryConnect_some_outcome o f s n,
   fun o s f ms h => retryConnect_sleep_fixed o f s ms h⟩

/-- **C6** witness: with an immediately succeeding attempt and one unit of
fuel, the loop returns. -/
theorem C6_connect_witness :
    ((connectToRabbitMQ (fun _ => true) 0 1).2).isSome = true :=
  C6_connect_retries_until_success.2.2.2.1 (fun _ => true) 0 1 ⟨0, by decide, rfl⟩

/-- **C7** (confirmed).  `main` issues `channel.prefetch(1)` strictly
before `channel.consume` (positions 3 and 4 of its five channel
operations), and under the broker's prefetch discipline with limit
`PREFETCH_COUNT = 1`, every reachable state has at most one
delivered-but-unresolved message, and a new delivery is possible only when
the previous message has been resolved (acked or nacked) — processing is
strictly sequential in delivery order. -/
theorem C7_prefetch_one_sequential :
    (mainChannelOps[3]? = some (ChannelOp.setPrefetch 1) ∧
     mainChannelOps[4]? = some (ChannelOp.consume RABBITMQ_QUEUE) ∧
     mainChannelOps.length = 5 ∧
     PREFETCH_COUNT = 1) ∧
    (∀ k : Nat, Relation.ReflTransGen (BrokerStep PREFETCH_COUNT) 0 k → k ≤ 1) ∧
    (∀ k : Nat, BrokerStep PREFETCH_COUNT k (k + 1) → k = 0) := by
  refine ⟨by decide, ?_, ?_⟩
  · intro k h
    induction h with
    | refl => omega
    | tail _ hstep ih =>
        cases hstep with
        | deliver hl =>
            have hp : PREFETCH_COUNT = 1 := rfl
            omega
        | resolve => omega
  · intro k h
    cases h with
    | deliver hl =>
        have hp : PREFETCH_COUNT = 1 := rfl
        omega

/-- **C7** witness: the invariant applied to the initial state. -/
theorem C7_prefetch_witness : (0 : Nat) ≤ 1 :=
  C7_prefetch_one_sequential.2.1 0 Relation.ReflTransGen.refl

/-- **C8** (confirmed).  The SIGINT handler exits 0 exactly when closing
the broker connection and then the store connection both succeed, and exits
1 when either close throws; unrecoverable startup failure also exits 1. -/
theorem C8_exit_codes :
    sigintShutdownExitCode true true = 0 ∧
    sigintShutdownExitCode false true = 1 ∧
    sigintShutdownExitCode true false = 1 ∧
    sigintShutdownExitCode false false = 1 ∧
    startupFailureExitCode = 1 := by decide

/-- **C9** (confirmed).  A parsed message with no `database` and no `table`
property is processed to completion without any error path: the document is
inserted, the log line substitutes the string "unknown" for each absent
field, the message is acked and never nacked (given the insert and ack
calls themselves succeed, i.e. the absence of the fields is never the cause
of a failure). -/
theorem C9_absent_fields_processed_as_unknown (content : Obj) (nowMs : Nat)
    (hdb : lookupField content "database" = none)
    (htb : lookupField content "table" = none) :
    processMessage (Body.wellFormed content) nowMs ⟨true, true⟩ =
      [Action.insertAttempt (setField content "received_at" (receivedAtStamp nowMs)) true,
       Action.log (Value.str "unknown") (Value.str "unknown")
         (jsOr (lookupField (setField content "received_at" (receivedAtStamp nowMs)) "type")
            (Value.str "unknown")),
       Action.ackAttempt true] ∧
    Action.nack false true ∉ processMessage (Body.wellFormed content) nowMs ⟨true, true⟩ ∧
    Action.ackAttempt true ∈ processMessage (Body.wellFormed content) nowMs ⟨true, true⟩ := by
  have h1 :
      lookupField (setField content "received_at" (receivedAtStamp nowMs)) "database" = none := by
    rw [lookupField_setField_ne content "received_at" "database" (receivedAtStamp nowMs)
      (by decide)]
    exact hdb
  have h2 :
      lookupField (setField content "received_at" (receivedAtStamp nowMs)) "table" = none := by
    rw [lookupField_setField_ne content "received_at" "table" (receivedAtStamp nowMs)
      (by decide)]
    exact htb
  refine ⟨?_, ?_, ?_⟩
  · simp [processMessage, parseJSON, h1, h2, jsOr]
  · simp [processMessage, parseJSON]
  · simp [processMessage, parseJSON]

/-- **C9** witness: the empty object is processed to completion with both
log labels "unknown". -/
theorem C9_absent_fields_witness :
    processMessage (Body.wellFormed Fields.nil) 0 ⟨true, true⟩ =
      [Action.insertAttempt (setField Fields.nil "received_at" (receivedAtStamp 0)) true,
       Action.log (Value.str "unknown") (Value.str "unknown")
         (jsOr (lookupField (setField Fields.nil "received_at" (receivedAtStamp 0)) "type")
            (Value.str "unknown")),
       Action.ackAttempt true] :=
  (C9_absent_fields_processed_as_unknown Fields.nil 0 rfl rfl).1

/-- **C10** (confirmed).  Every document passed to `collection.insertOne`
— on any message, at any time, under any external outcomes — carries the
numeric `received_at` field equal to the current time divided by 1000
(seconds since epoch, possibly fractional), assigned before the insert
call; no insert is ever attempted on a document lacking the field. -/
theorem C10_inserted_docs_carry_timestamp (message : Body) (nowMs : Nat) (env : MsgEnv)
    (doc : Obj) (ok : Bool)
    (h : Action.insertAttempt doc ok ∈ processMessage message nowMs env) :
    lookupField doc "received_at" = some (Value.num ((nowMs : Rat) / 1000)) ∧
    (lookupField doc "received_at").isSome = true := by
  cases message with
  | malformed raw => simp [processMessage, parseJSON] at h
  | wellFormed content =>
      obtain ⟨hd, -⟩ := (insertAttempt_mem_processMessage_iff content nowMs env doc ok).mp h
      subst hd
      constructor
      · rw [lookupField_setField_self, receivedAtStamp_eq_div]
      · rw [lookupField_setField_self]
        rfl

/-- **C10** witness: the concrete insert at 2000 ms carries the field. -/
theorem C10_inserted_docs_witness :
    (lookupField (Fields.cons "received_at" (Value.num 2) Fields.nil) "received_at").isSome
      = true :=
  (C10_inserted_docs_carry_timestamp (Body.wellFormed Fields.nil) 2000 ⟨true, true⟩
      (Fields.cons "received_at" (Value.num 2) Fields.nil) true (by decide)).2

end Consumer
